import Mathlib

/-!
# Verification of the electron-updater core decision logic

Shallow embedding of the update-availability decision, staging-rollout gate,
download bookkeeping and channel setter of the `electron-updater` package
(`src/packages/electron-updater/src/AppUpdater.ts` and
`src/packages/electron-updater/src/AppImageUpdater.ts`), together with proofs
of the specified properties.
-/

set_option maxHeartbeats 1000000
set_option maxRecDepth 2000

namespace ElectronUpdater

/-- JavaScript errors as they matter to the updater: `CancellationError`
instances are distinguished (`instanceof CancellationError`), errors built by
`newError(message, code)` carry a code, plain `Error`s only a message. -/
inductive JsError
  | cancellation
  | coded (message : String) (code : String)
  | plain (message : String)
deriving DecidableEq

/-- Warnings emitted through `this._logger.warn` in `isStagingMatch` and
relevant to the staging gate (identified by which call site fired). -/
inductive LogWarning
  | stagingPercentageNaN
  | stagingUserIdUnsupported
deriving DecidableEq

/-- Result of JavaScript `parseInt(x, 10)` on the raw `stagingPercentage`
field: either an integer or `NaN`. -/
inductive JsNum
  | int (p : Int)
  | nan
deriving DecidableEq

/-- Modelled from the spec: `UUID.parse` (builder-util-runtime, not under
`src/`) turns the persisted staging-UUID string into its 16 bytes; we carry
the staging user id directly as that byte buffer. -/
abbrev UuidBytes : Type := List (Fin 256)

/-- Node `Buffer.readUInt32BE(off)`: four bytes at `off` as a big-endian
32-bit unsigned integer. `isStagingMatch` reads offset 12, the last four
bytes of the 16-byte UUID. -/
def readUInt32BE (buf : UuidBytes) (off : Nat) : Nat :=
  (buf.getD off 0).val * 16777216 + (buf.getD (off + 1) 0).val * 65536 +
    (buf.getD (off + 2) 0).val * 256 + (buf.getD (off + 3) 0).val

/-- The fields of the remote `UpdateInfo` manifest that the availability
decision reads: the version string and the optional staging percentage.
The `stagingPercentage` field is carried as the result `parseInt` gives on
it (`none` = field absent, `some .nan` = present but non-numeric). -/
structure UpdateInfoM where
  version : String
  stagingPercentage : Option JsNum
deriving DecidableEq

/-- `AppUpdater.isStagingMatch` (AppUpdater.ts lines 294-319). Returns the
gate decision together with the warnings logged on the way.

The source compares IEEE doubles: `val / 0xffffffff < p / 100`. For
`val ≤ 0xffffffff` and integer `p` of small magnitude the two divisions are
each within 2⁻⁵² relative error while distinct exact values of the two sides
differ by at least `1 / (100 * 0xffffffff) > 2⁻³⁹` relatively, and equal
exact values round to the identical double, so the double comparison equals
the exact rational comparison `100 * val < p * 0xffffffff`, which is what we
use. -/
def isStagingMatch (info : UpdateInfoM) (stagingUserId : Option UuidBytes) :
    Bool × List LogWarning :=
  match info.stagingPercentage with
  | none => (true, [])
  | some raw =>
    match raw with
    | JsNum.nan => (true, [LogWarning.stagingPercentageNaN])
    | JsNum.int p =>
      match stagingUserId with
      | none => (true, [LogWarning.stagingUserIdUnsupported])
      | some uuid =>
        (decide (100 * (readUInt32BE uuid 12 : Int) < p * 0xffffffff), [])

/-- The fraction `F` of the spec: last four UUID bytes as a big-endian 32-bit
integer divided by max-uint32, as an exact rational. -/
def stagingFraction (uuid : UuidBytes) : ℚ :=
  (readUInt32BE uuid 12 : ℚ) / 0xffffffff

/-- A staging UUID whose last four bytes are `0xFFFFFFFF`. -/
def uuidAllFF : UuidBytes := List.replicate 16 (255 : Fin 256)

/-- A staging UUID whose last four bytes are `0x00000000`. -/
def uuidAllZero : UuidBytes := List.replicate 16 (0 : Fin 256)

/-! ## Semantic versions

`isUpdateAvailable` uses the external `semver` npm package
(`parse`, `eq`, `gt`, `lt`).  The model below implements that library's
documented grammar and precedence rules: versions are `major.minor.patch`
with an optional dash-separated prerelease of dot-separated identifiers
(numeric identifiers without leading zeros, or alphanumeric/hyphen
identifiers) and an optional `+build` part ignored for precedence; strict
parsing allows one leading `v`, loose parsing additionally allows leading
`=`/whitespace and leading zeros. -/

/-- A prerelease identifier: numeric or alphanumeric. -/
inductive PreId
  | num (n : Nat)
  | str (s : String)
deriving DecidableEq

/-- A parsed semantic version (build metadata is dropped: it never affects
precedence nor equality in the `semver` package). -/
structure SemVer where
  major : Nat
  minor : Nat
  patch : Nat
  prerelease : List PreId
deriving DecidableEq

/-- Split a character list on a separator character. -/
def splitOnChar (sep : Char) : List Char → List (List Char)
  | [] => [[]]
  | c :: rest =>
    let r := splitOnChar sep rest
    if c = sep then [] :: r
    else
      match r with
      | g :: gs => (c :: g) :: gs
      | [] => [[c]]

/-- Split at the first occurrence of a separator: the part before it, and
(if present) the part after it. -/
def splitAtFirst (sep : Char) : List Char → List Char × Option (List Char)
  | [] => ([], none)
  | c :: rest =>
    if c = sep then ([], some rest)
    else
      let r := splitAtFirst sep rest
      (c :: r.1, r.2)

/-- Drop leading characters satisfying a predicate. -/
def dropLeading (p : Char → Bool) : List Char → List Char
  | [] => []
  | c :: rest => if p c then dropLeading p rest else c :: rest

/-- Trim whitespace on both ends (the `semver` constructor trims its input). -/
def trimChars (cs : List Char) : List Char :=
  ((dropLeading Char.isWhitespace cs.reverse).reverse |> dropLeading Char.isWhitespace)

/-- Decimal digits to a natural number. -/
def digitsToNat (cs : List Char) : Nat :=
  cs.foldl (fun acc c => acc * 10 + (c.toNat - 48)) 0

/-- A character allowed in an alphanumeric identifier: `[0-9A-Za-z-]`. -/
def isIdentChar (c : Char) : Bool :=
  c.isDigit || c.isAlpha || c = '-'

/-- A numeric identifier: nonempty, all digits, no leading zero unless loose. -/
def parseNumericId (loose : Bool) (cs : List Char) : Option Nat :=
  if cs.isEmpty then none
  else if !cs.all Char.isDigit then none
  else if !loose && decide (1 < cs.length) && decide (cs.headD '0' = '0') then none
  else some (digitsToNat cs)

/-- A prerelease identifier: numeric, or alphanumeric containing a non-digit. -/
def parsePreId (loose : Bool) (cs : List Char) : Option PreId :=
  if cs.isEmpty then none
  else if cs.all Char.isDigit then
    if !loose && decide (1 < cs.length) && decide (cs.headD '0' = '0') then none
    else some (PreId.num (digitsToNat cs))
  else if cs.all isIdentChar then some (PreId.str (String.mk cs))
  else none

/-- Parse `major.minor.patch[-prerelease][+build]` from characters already
stripped of the leading `v`/`=`/whitespace. -/
def parseVersionCore (loose : Bool) (cs : List Char) : Option SemVer :=
  let withBuild := splitAtFirst '+' cs
  let buildOk :=
    match withBuild.2 with
    | none => true
    | some b => !b.isEmpty && (splitOnChar '.' b).all fun g => !g.isEmpty && g.all isIdentChar
  if !buildOk then none
  else
    let withPre := splitAtFirst '-' withBuild.1
    match splitOnChar '.' withPre.1 with
    | [ma, mi, pa] =>
      match parseNumericId loose ma, parseNumericId loose mi, parseNumericId loose pa with
      | some major, some minor, some patch =>
        match withPre.2 with
        | none => some ⟨major, minor, patch, []⟩
        | some pre =>
          if pre.isEmpty then none
          else
            let groups := (splitOnChar '.' pre).map (parsePreId loose)
            if groups.all Option.isSome then some ⟨major, minor, patch, groups.reduceOption⟩
            else none
      | _, _, _ => none
    | _ => none

/-- `parse` of the `semver` package: trim, strip the permitted leading
characters, then parse the core grammar. Result `none` models the library
returning `null`. -/
def parseVersion (loose : Bool) (s : String) : Option SemVer :=
  let cs := trimChars s.data
  let cs :=
    if loose then dropLeading (fun c => c = 'v' || c = '=' || c.isWhitespace) cs
    else
      match cs with
      | 'v' :: rest => rest
      | other => other

  parseVersionCore loose cs

/-- Compare prerelease identifiers: numeric sorts below alphanumeric,
numerics by value, alphanumerics lexically. -/
def comparePreId : PreId → PreId → Ordering
  | PreId.num a, PreId.num b => compare a b
  | PreId.num _, PreId.str _ => Ordering.lt
  | PreId.str _, PreId.num _ => Ordering.gt
  | PreId.str a, PreId.str b => compare a b

/-- Compare nonempty-or-both-empty prerelease tails elementwise; a strict
prefix sorts first. -/
def comparePreRest : List PreId → List PreId → Ordering
  | [], [] => Ordering.eq
  | [], _ :: _ => Ordering.lt
  | _ :: _, [] => Ordering.gt
  | x :: xs, y :: ys => (comparePreId x y).then (comparePreRest xs ys)

/-- Compare prerelease lists: a version without prerelease has higher
precedence than any prerelease of the same triple. -/
def comparePre : List PreId → List PreId → Ordering
  | [], [] => Ordering.eq
  | [], _ :: _ => Ordering.gt
  | x :: xs, y :: ys => comparePreRest (x :: xs) (y :: ys)
  | _ :: _, [] => Ordering.lt

/-- Full semver precedence comparison. -/
def compareSemVer (a b : SemVer) : Ordering :=
  (compare a.major b.major).then
    ((compare a.minor b.minor).then
      ((compare a.patch b.patch).then (comparePre a.prerelease b.prerelease)))

/-- `semver.eq`. -/
def semverEq (a b : SemVer) : Bool := compareSemVer a b == Ordering.eq

/-- `semver.gt`. -/
def semverGt (a b : SemVer) : Bool := compareSemVer a b == Ordering.gt

/-- `semver.lt`. -/
def semverLt (a b : SemVer) : Bool := compareSemVer a b == Ordering.lt

/-! ## The availability decision -/

/-- The `useSemver` option: `true`, `"loose"`, or `false`. -/
inductive UseSemver
  | strict
  | loose
  | noSemver
deriving DecidableEq

/-- Whether `parseVersion` is called with `{ loose: true }`. -/
def UseSemver.isLoose : UseSemver → Bool
  | UseSemver.loose => true
  | _ => false

/-- The `AppUpdater` fields read by `isUpdateAvailable`. -/
structure UpdaterConfig where
  useSemver : UseSemver
  allowDowngrade : Bool
  currentVersionString : String
deriving DecidableEq

/-- The error code used for unparseable versions. -/
def invalidVersionCode : String := "ERR_UPDATER_INVALID_VERSION"

/-- `AppUpdater.isUpdateAvailable` (AppUpdater.ts lines 328-363), with
`throw` modelled as `Except.error`. The `currentVersion` getter inlines to
parsing `currentVersionString` (it can only be `null` here when the parse
fails, since `useSemver === false` already returned). -/
def isUpdateAvailable (cfg : UpdaterConfig) (info : UpdateInfoM)
    (stagingUserId : Option UuidBytes) : Except JsError Bool :=
  if cfg.useSemver = UseSemver.noSemver then
    Except.ok (info.version != cfg.currentVersionString)
  else
    match parseVersion cfg.useSemver.isLoose info.version with
    | none =>
      Except.error (JsError.coded
        ("This file could not be downloaded, or the latest version (from update server) does not have a valid semver version: " ++ info.version)
        invalidVersionCode)
    | some latestVersion =>
      match parseVersion cfg.useSemver.isLoose cfg.currentVersionString with
      | none =>
        Except.error (JsError.coded
          ("App version is not a valid semver version: " ++ cfg.currentVersionString)
          invalidVersionCode)
      | some currentVersion =>
        if semverEq latestVersion currentVersion then Except.ok false
        else if !(isStagingMatch info stagingUserId).1 then Except.ok false
        else if semverGt latestVersion currentVersion then Except.ok true
        else Except.ok (cfg.allowDowngrade && semverLt latestVersion currentVersion)

/-! ## Single-flight `checkForUpdates`

`AppUpdater.checkForUpdates` (AppUpdater.ts lines 216-239) memoizes the
in-flight promise in the `checkForUpdatesPromise` field and clears it (via
`nullizePromise`) in both the `then` and the `catch` handler, i.e. when the
promise settles.  Promises are modelled by identifiers; starting a check
performs the provider round trip of `doCheckForUpdates`
(`provider.getLatestVersion()`), counted in `providerRoundTrips`. -/

/-- The updater state that the single-flight logic touches. -/
structure CheckState where
  checkForUpdatesPromise : Option Nat
  nextPromiseId : Nat
  providerRoundTrips : Nat
deriving DecidableEq

/-- `checkForUpdates()`: return the memoized in-flight promise if present,
otherwise start a fresh check (one provider round trip) and memoize it. -/
def checkForUpdates (s : CheckState) : Nat × CheckState :=
  match s.checkForUpdatesPromise with
  | some p => (p, s)
  | none =>
    (s.nextPromiseId,
      { checkForUpdatesPromise := some s.nextPromiseId,
        nextPromiseId := s.nextPromiseId + 1,
        providerRoundTrips := s.providerRoundTrips + 1 })

/-- The settlement handlers installed on the fresh promise: both the
resolution and the rejection path call `nullizePromise`, clearing the
memoized field. -/
def settleCheck (s : CheckState) : CheckState :=
  { s with checkForUpdatesPromise := none }

/-! ## `executeDownload` and `downloadUpdate`

`AppUpdater.executeDownload` (AppUpdater.ts lines 600-676) and
`AppUpdater.downloadUpdate` (lines 450-487).  The helper methods of
`DownloadedUpdateHelper` are not under `src/`; they are modelled from the
spec (section 4.4): `validateDownloadedPath` returns a cached file path or
null (we take its result as an input), `setDownloadedFile` persists the
`CachedUpdateInfo` sidecar only when `isSaveCache` is true, and `clear()`
deletes the cache directory contents — which contain the temp file created
there by `createTempUpdateFile`. -/

/-- Observable actions of a download in the order they happen. -/
inductive DlEvent
  | taskRun
  | downloadedSet (isSaveCache : Bool)
  | doneTask
  | updateCancelled
  | errorEmitted
deriving DecidableEq

/-- On-disk state of the update cache directory. -/
structure CacheState where
  tempFileExists : Bool
  updateFileExists : Bool
  cachedInfoRecord : Bool
deriving DecidableEq

/-- Outcome of the `taskOptions.task` invocation (the platform download
task): success, or rejection with an error. -/
inductive TaskOutcome
  | success
  | failure (e : JsError)
deriving DecidableEq

/-- Modelled from the spec: `DownloadedUpdateHelper.setDownloadedFile`
persists the `CachedUpdateInfo` sidecar record only when `isSaveCache` is
true. -/
def setDownloadedFile (isSaveCache : Bool) (s : CacheState) : CacheState :=
  if isSaveCache then { s with cachedInfoRecord := true } else s

/-- Modelled from the spec: `DownloadedUpdateHelper.clear` deletes the cache
directory contents (the pending temp file, the downloaded file and the
sidecar record all live there). -/
def clearCache (_s : CacheState) : CacheState :=
  { tempFileExists := false, updateFileExists := false, cachedInfoRecord := false }

/-- The `removeFileIfAny` closure: `clear()` then `unlink(updateFile)`,
errors ignored. -/
def removeFileIfAny (s : CacheState) : CacheState :=
  { clearCache s with updateFileExists := false }

/-- `AppUpdater.executeDownload`, parameterized by the result of
`validateDownloadedPath` (`cachedUpdateFile`) and by how the platform task
settles.  Returns the settlement of the returned promise, the final cache
state and the emitted events in order. -/
def executeDownload (cachedUpdateFile : Option String) (outcome : TaskOutcome)
    (s0 : CacheState) : Except JsError (List String) × CacheState × List DlEvent :=
  match cachedUpdateFile with
  | some cached =>
    let s := setDownloadedFile false s0
    (Except.ok [cached], s, [DlEvent.downloadedSet false, DlEvent.doneTask])
  | none =>
    let s := { s0 with tempFileExists := true }
    match outcome with
    | TaskOutcome.success =>
      let s := { s with tempFileExists := false, updateFileExists := true }
      let s := setDownloadedFile true s
      (Except.ok ["updateFile"], s,
        [DlEvent.taskRun, DlEvent.downloadedSet true, DlEvent.doneTask])
    | TaskOutcome.failure e =>
      let s := removeFileIfAny s
      if e = JsError.cancellation then
        (Except.error e, s, [DlEvent.taskRun, DlEvent.updateCancelled])
      else
        (Except.error e, s, [DlEvent.taskRun])

/-- `AppUpdater.downloadUpdate`: rejects immediately (dispatching the error)
when no update was checked; otherwise runs the platform task through
`executeDownload` and, on rejection, dispatches the error to the generic
error channel unless it is a `CancellationError`. -/
def downloadUpdate (hasCheckedUpdate : Bool) (cachedUpdateFile : Option String)
    (outcome : TaskOutcome) (s0 : CacheState) :
    Except JsError (List String) × CacheState × List DlEvent :=
  if !hasCheckedUpdate then
    (Except.error (JsError.plain "Please check update first"), s0, [DlEvent.errorEmitted])
  else
    match executeDownload cachedUpdateFile outcome s0 with
    | (Except.ok r, s, evs) => (Except.ok r, s, evs)
    | (Except.error e, s, evs) =>
      if e = JsError.cancellation then (Except.error e, s, evs)
      else (Except.error e, s, evs ++ [DlEvent.errorEmitted])

/-! ## The AppImage download task

`AppImageUpdater.doDownloadUpdate` (AppImageUpdater.ts lines 51-94): the
task first attempts the differential download; on any error it logs and
sets `isDownloadFull = (process.platform === "linux")` — the error itself is
swallowed — and performs the full download only when that flag is true. -/

/-- What the AppImage task produced when it resolved. -/
inductive AppImageResult
  | differential
  | fullFile
  | noNewFile
deriving DecidableEq

/-- The `task` closure of `AppImageUpdater.doDownloadUpdate`, parameterized
by the platform string and by whether the differential download attempt
rejected (and with what error); `chmod` is assumed to succeed. -/
def appImageDownloadTask (platform : String) (diffError : Option JsError) :
    Except JsError AppImageResult :=
  match diffError with
  | none => Except.ok AppImageResult.differential
  | some _e =>
    let isDownloadFull := platform == "linux"
    if isDownloadFull then Except.ok AppImageResult.fullFile
    else Except.ok AppImageResult.noNewFile

/-! ## The channel setter

`AppUpdater.channel` setter (AppUpdater.ts lines 80-92): validation runs
only when `this._channel != null`; the stored value may be any JavaScript
value handed to the setter. -/

/-- JavaScript values as far as the channel setter can observe them. -/
inductive JsVal
  | vstr (s : String)
  | vnull
  | vnum (n : Int)
  | vbool (b : Bool)
deriving DecidableEq

/-- The `_channel` and `allowDowngrade` fields; `_channel` starts as
`null` (`JsVal.vnull`). -/
structure ChannelState where
  channelField : JsVal
  allowDowngrade : Bool
deriving DecidableEq

/-- The error code thrown by the channel setter. -/
def invalidChannelCode : String := "ERR_UPDATER_INVALID_CHANNEL"

/-- The `set channel(value)` body: if a channel is already stored, reject
non-strings and the empty string; otherwise (and after any passing
validation) store the value and set `allowDowngrade` to true. -/
def setChannel (value : JsVal) (s : ChannelState) : Except JsError ChannelState :=
  if s.channelField ≠ JsVal.vnull then
    match value with
    | JsVal.vstr str =>
      if str.length = 0 then
        Except.error (JsError.coded "Channel must be not an empty string" invalidChannelCode)
      else Except.ok { channelField := value, allowDowngrade := true }
    | _ => Except.error (JsError.coded "Channel must be a string" invalidChannelCode)
  else Except.ok { channelField := value, allowDowngrade := true }

/-! ## Helper lemmas -/

/-- The big-endian 32-bit read never exceeds max-uint32. -/
theorem readUInt32BE_le (buf : UuidBytes) (off : Nat) :
    readUInt32BE buf off ≤ 0xffffffff := by
  unfold readUInt32BE
  have h1 : (buf.getD off 0).val < 256 := (buf.getD off 0).isLt
  have h2 : (buf.getD (off + 1) 0).val < 256 := (buf.getD (off + 1) 0).isLt
  have h3 : (buf.getD (off + 2) 0).val < 256 := (buf.getD (off + 2) 0).isLt
  have h4 : (buf.getD (off + 3) 0).val < 256 := (buf.getD (off + 3) 0).isLt
  omega

/-- A string has length zero exactly when it is empty. -/
theorem string_length_zero_iff (s : String) : s.length = 0 ↔ s = "" := by
  constructor
  · intro h
    cases s with
    | mk data =>
      cases data with
      | nil => rfl
      | cons c cs => simp [String.length] at h
  · intro h
    subst h
    rfl

/-- A strictly smaller semver is neither equal nor greater. -/
theorem semverLt_excludes (r c : SemVer) (h : semverLt r c = true) :
    semverEq r c = false ∧ semverGt r c = false := by
  unfold semverLt at h
  unfold semverEq semverGt
  cases hco : compareSemVer r c
  · exact ⟨rfl, rfl⟩
  · rw [hco] at h
    exact absurd h (by decide)
  · rw [hco] at h
    exact absurd h (by decide)

/-- A strictly greater semver is not equal. -/
theorem semverGt_excludes (r c : SemVer) (h : semverGt r c = true) :
    semverEq r c = false := by
  unfold semverGt at h
  unfold semverEq
  cases hco : compareSemVer r c
  · rw [hco] at h
    exact absurd h (by decide)
  · rw [hco] at h
    exact absurd h (by decide)
  · exact rfl

/-! ## Claim theorems: the staging gate -/

/-- C2 (counterexample): the claim asserts the derived fraction `F` always
lies in `[0,1)`; for a staging UUID whose last four bytes are `0xFFFFFFFF`
the fraction is exactly `1`, so it does not. -/
theorem stagingFraction_reaches_one :
    stagingFraction uuidAllFF = 1 ∧ ¬ stagingFraction uuidAllFF < 1 := by
  have h : readUInt32BE uuidAllFF 12 = 4294967295 := by decide
  constructor
  · rw [stagingFraction, h]
    norm_num
  · rw [stagingFraction, h]
    norm_num

/-- C2 (amended): for every staging UUID and integer percentage
`0 ≤ P ≤ 100`, the gate passes iff `F < P / 100`, and `F` lies in `[0,1]`
(the fraction can reach `1` exactly). -/
theorem isStagingMatch_iff_fraction (uuid : UuidBytes) (p : Int) (v : String)
    (hp0 : 0 ≤ p) (hp1 : p ≤ 100) :
    ((isStagingMatch ⟨v, some (JsNum.int p)⟩ (some uuid)).1 = true ↔
      stagingFraction uuid < (p : ℚ) / 100) ∧
    0 ≤ stagingFraction uuid ∧ stagingFraction uuid ≤ 1 := by
  refine ⟨?_, ?_, ?_⟩
  · simp only [isStagingMatch]
    rw [decide_eq_true_iff, stagingFraction,
      div_lt_div_iff₀ (by norm_num) (by norm_num)]
    constructor
    · intro h
      have h2 : ((readUInt32BE uuid 12 : Nat) : Int) * 100 < p * 4294967295 := by linarith
      exact_mod_cast h2
    · intro h
      have h2 : ((readUInt32BE uuid 12 : Nat) : Int) * 100 < p * 4294967295 := by
        exact_mod_cast h
      linarith
  · rw [stagingFraction]
    positivity
  · rw [stagingFraction]
    rw [div_le_one (by norm_num)]
    exact_mod_cast readUInt32BE_le uuid 12

/-- Witness for `isStagingMatch_iff_fraction` at the all-zero UUID and
`P = 50`. -/
theorem isStagingMatch_iff_fraction_witness :
    ((isStagingMatch ⟨"", some (JsNum.int 50)⟩ (some uuidAllZero)).1 = true ↔
      stagingFraction uuidAllZero < ((50 : Int) : ℚ) / 100) ∧
    0 ≤ stagingFraction uuidAllZero ∧ stagingFraction uuidAllZero ≤ 1 :=
  isStagingMatch_iff_fraction uuidAllZero 50 "" (by decide) (by decide)

/-- C3 (counterexample): with `P = 100` the gate does not pass for every
UUID — it fails for the UUID whose last four bytes are `0xFFFFFFFF`
(`F = 1` and the comparison `F < P / 100` is strict). -/
theorem staging_gate_hundred_fails_at_ff :
    (isStagingMatch ⟨"", some (JsNum.int 100)⟩ (some uuidAllFF)).1 = false := by
  decide

/-- C3 (amended): with `P = 0` the gate fails for every UUID; with `P = 100`
it passes for every UUID whose last four bytes are not `0xFFFFFFFF`, and
fails on that one remaining UUID value. -/
theorem staging_gate_boundaries (uuid : UuidBytes) (v : String) :
    (isStagingMatch ⟨v, some (JsNum.int 0)⟩ (some uuid)).1 = false ∧
    (readUInt32BE uuid 12 ≠ 0xffffffff →
      (isStagingMatch ⟨v, some (JsNum.int 100)⟩ (some uuid)).1 = true) := by
  constructor
  · simp only [isStagingMatch, decide_eq_false_iff_not, not_lt]
    positivity
  · intro h
    have hle := readUInt32BE_le uuid 12
    simp only [isStagingMatch, decide_eq_true_eq]
    omega

/-- Witness for `staging_gate_boundaries` at the all-zero UUID. -/
theorem staging_gate_boundaries_witness :
    (isStagingMatch ⟨"", some (JsNum.int 0)⟩ (some uuidAllZero)).1 = false ∧
    (isStagingMatch ⟨"", some (JsNum.int 100)⟩ (some uuidAllZero)).1 = true :=
  ⟨(staging_gate_boundaries uuidAllZero "").1,
    (staging_gate_boundaries uuidAllZero "").2 (by decide)⟩

/-- C9: a present-but-NaN staging percentage passes the gate with a warning;
a missing staging user id (with a numeric percentage present) passes the
gate with a warning; an absent staging percentage passes with no warning. -/
theorem staging_gate_fail_open (info : UpdateInfoM) (uid : Option UuidBytes) :
    (info.stagingPercentage = some JsNum.nan →
      (isStagingMatch info uid).1 = true ∧
      LogWarning.stagingPercentageNaN ∈ (isStagingMatch info uid).2) ∧
    (uid = none →
      (isStagingMatch info uid).1 = true ∧
      ∀ p : Int, info.stagingPercentage = some (JsNum.int p) →
        LogWarning.stagingUserIdUnsupported ∈ (isStagingMatch info uid).2) ∧
    (info.stagingPercentage = none → isStagingMatch info uid = (true, [])) := by
  refine ⟨?_, ?_, ?_⟩
  · intro h
    simp [isStagingMatch, h]
  · intro h
    subst h
    cases hsp : info.stagingPercentage with
    | none => simp [isStagingMatch, hsp]
    | some raw =>
      cases raw with
      | nan => simp [isStagingMatch, hsp]
      | int p => simp [isStagingMatch, hsp]
  · intro h
    simp [isStagingMatch, h]

/-- Witness for `staging_gate_fail_open`: the NaN case, the missing-user-id
case and the absent-percentage case at concrete inputs. -/
theorem staging_gate_fail_open_witness :
    ((isStagingMatch ⟨"", some JsNum.nan⟩ none).1 = true ∧
      LogWarning.stagingPercentageNaN ∈ (isStagingMatch ⟨"", some JsNum.nan⟩ none).2) ∧
    ((isStagingMatch ⟨"", some (JsNum.int 5)⟩ none).1 = true ∧
      LogWarning.stagingUserIdUnsupported ∈ (isStagingMatch ⟨"", some (JsNum.int 5)⟩ none).2) ∧
    isStagingMatch ⟨"", none⟩ (some uuidAllZero) = (true, []) :=
  ⟨(staging_gate_fail_open ⟨"", some JsNum.nan⟩ none).1 rfl,
    ⟨((staging_gate_fail_open ⟨"", some (JsNum.int 5)⟩ none).2.1 rfl).1,
      ((staging_gate_fail_open ⟨"", some (JsNum.int 5)⟩ none).2.1 rfl).2 5 rfl⟩,
    (staging_gate_fail_open ⟨"", none⟩ (some uuidAllZero)).2.2 rfl⟩

/-! ## Claim theorems: the availability decision -/

/-- C1: in semver mode, a parse failure of either side yields
`ERR_UPDATER_INVALID_VERSION`; equal versions are not available; when the
staging gate passes, a newer remote version is available and an older remote
version is available exactly when `allowDowngrade` is set. -/
theorem isUpdateAvailable_semver_decision (cfg : UpdaterConfig)
    (info : UpdateInfoM) (uid : Option UuidBytes)
    (h : cfg.useSemver ≠ UseSemver.noSemver) :
    (parseVersion cfg.useSemver.isLoose info.version = none →
      ∃ m, isUpdateAvailable cfg info uid =
        Except.error (JsError.coded m invalidVersionCode)) ∧
    (parseVersion cfg.useSemver.isLoose cfg.currentVersionString = none →
      ∃ m, isUpdateAvailable cfg info uid =
        Except.error (JsError.coded m invalidVersionCode)) ∧
    (∀ r c, parseVersion cfg.useSemver.isLoose info.version = some r →
      parseVersion cfg.useSemver.isLoose cfg.currentVersionString = some c →
      (semverEq r c = true → isUpdateAvailable cfg info uid = Except.ok false) ∧
      ((isStagingMatch info uid).1 = true → semverGt r c = true →
        isUpdateAvailable cfg info uid = Except.ok true) ∧
      ((isStagingMatch info uid).1 = true → semverLt r c = true →
        isUpdateAvailable cfg info uid = Except.ok cfg.allowDowngrade)) := by
  refine ⟨?_, ?_, ?_⟩
  · intro hp
    exact ⟨_, by rw [isUpdateAvailable, if_neg h, hp]⟩
  · intro hc
    cases hr : parseVersion cfg.useSemver.isLoose info.version with
    | none => exact ⟨_, by rw [isUpdateAvailable, if_neg h, hr]⟩
    | some r => exact ⟨_, by rw [isUpdateAvailable, if_neg h, hr, hc]⟩
  · intro r c hr hc
    refine ⟨?_, ?_, ?_⟩
    · intro he
      simp [isUpdateAvailable, if_neg h, hr, hc, he]
    · intro hs hg
      have he := semverGt_excludes r c hg
      simp [isUpdateAvailable, if_neg h, hr, hc, he, hs, hg]
    · intro hs hl
      have he := (semverLt_excludes r c hl).1
      have hg := (semverLt_excludes r c hl).2
      simp [isUpdateAvailable, if_neg h, hr, hc, he, hs, hg, hl]

/-- Witness for `isUpdateAvailable_semver_decision`: current `1.0.0`, remote
`1.1.0`, no staging percentage — the update is available. -/
theorem isUpdateAvailable_semver_decision_witness :
    isUpdateAvailable ⟨UseSemver.strict, false, "1.0.0"⟩ ⟨"1.1.0", none⟩ none =
      Except.ok true :=
  ((isUpdateAvailable_semver_decision ⟨UseSemver.strict, false, "1.0.0"⟩
      ⟨"1.1.0", none⟩ none (by decide)).2.2
    ⟨1, 1, 0, []⟩ ⟨1, 0, 0, []⟩ (by decide) (by decide)).2.1 rfl (by decide)

/-- C4: with `useSemver` disabled the update is available exactly when the
remote version string differs from the current one, for every staging
percentage, staging user id and downgrade flag. -/
theorem isUpdateAvailable_raw_string (cfg : UpdaterConfig) (info : UpdateInfoM)
    (uid : Option UuidBytes) (h : cfg.useSemver = UseSemver.noSemver) :
    (isUpdateAvailable cfg info uid = Except.ok true ↔
      info.version ≠ cfg.currentVersionString) ∧
    (isUpdateAvailable cfg info uid = Except.ok false ↔
      info.version = cfg.currentVersionString) := by
  rw [isUpdateAvailable, if_pos h]
  constructor
  · constructor
    · intro hok
      have hbne : (info.version != cfg.currentVersionString) = true :=
        Except.ok.inj hok
      exact bne_iff_ne.mp hbne
    · intro hne
      rw [bne_iff_ne.mpr hne]
  · constructor
    · intro hok
      have hbne : (info.version != cfg.currentVersionString) = false :=
        Except.ok.inj hok
      simpa using hbne
    · intro heq
      rw [heq]
      simp

/-- Witness for `isUpdateAvailable_raw_string`: current `build-42`, remote
`build-43` — available. -/
theorem isUpdateAvailable_raw_string_witness :
    isUpdateAvailable ⟨UseSemver.noSemver, false, "build-42"⟩ ⟨"build-43", none⟩
      none = Except.ok true :=
  (isUpdateAvailable_raw_string ⟨UseSemver.noSemver, false, "build-42"⟩
      ⟨"build-43", none⟩ none rfl).1.mpr (by decide)

/-! ## Claim theorems: single-flight, download bookkeeping, channel -/

/-- C5: while a check is in flight, `checkForUpdates` returns the identical
memoized promise without a further provider round trip; after the promise
settles the memoized field is cleared and the next call starts a fresh
check (a new promise and one more round trip). -/
theorem checkForUpdates_single_flight (s : CheckState) (p : Nat)
    (h : s.checkForUpdatesPromise = some p) :
    checkForUpdates s = (p, s) ∧
    (settleCheck (checkForUpdates s).2).checkForUpdatesPromise = none ∧
    (checkForUpdates (settleCheck s)).1 = s.nextPromiseId ∧
    (checkForUpdates (settleCheck s)).2.providerRoundTrips =
      s.providerRoundTrips + 1 ∧
    (checkForUpdates (settleCheck s)).2.checkForUpdatesPromise =
      some s.nextPromiseId := by
  refine ⟨?_, ?_, ?_, ?_, ?_⟩ <;> simp [checkForUpdates, settleCheck, h]

/-- Witness for `checkForUpdates_single_flight` at a concrete state with an
in-flight promise. -/
theorem checkForUpdates_single_flight_witness :
    checkForUpdates ⟨some 7, 8, 1⟩ = (7, ⟨some 7, 8, 1⟩) ∧
    (settleCheck (checkForUpdates ⟨some 7, 8, 1⟩).2).checkForUpdatesPromise = none ∧
    (checkForUpdates (settleCheck ⟨some 7, 8, 1⟩)).1 = 8 ∧
    (checkForUpdates (settleCheck ⟨some 7, 8, 1⟩)).2.providerRoundTrips = 2 ∧
    (checkForUpdates (settleCheck ⟨some 7, 8, 1⟩)).2.checkForUpdatesPromise = some 8 :=
  checkForUpdates_single_flight ⟨some 7, 8, 1⟩ 7 rfl

/-- C6: when the fresh-download task rejects with a `CancellationError`, the
promise rejects with that error, the temp file, downloaded file and cache
record are gone when the rejection propagates, `update-cancelled` fires
exactly once, and nothing reaches the generic `error` channel. -/
theorem downloadUpdate_cancellation (s : CacheState) :
    (downloadUpdate true none (TaskOutcome.failure JsError.cancellation) s).1 =
      Except.error JsError.cancellation ∧
    (downloadUpdate true none (TaskOutcome.failure JsError.cancellation) s).2.1.tempFileExists = false ∧
    (downloadUpdate true none (TaskOutcome.failure JsError.cancellation) s).2.1.updateFileExists = false ∧
    (downloadUpdate true none (TaskOutcome.failure JsError.cancellation) s).2.1.cachedInfoRecord = false ∧
    (downloadUpdate true none (TaskOutcome.failure JsError.cancellation) s).2.2.count
      DlEvent.updateCancelled = 1 ∧
    DlEvent.errorEmitted ∉
      (downloadUpdate true none (TaskOutcome.failure JsError.cancellation) s).2.2 := by
  refine ⟨?_, ?_, ?_, ?_, ?_, ?_⟩ <;>
    simp [downloadUpdate, executeDownload, removeFileIfAny, clearCache, List.count]

/-- C7 (evaluating the code at the failing input): when the differential
download attempt rejects, on Linux the task falls back to the full-file
download, but on any other platform the error is swallowed and the task
resolves successfully without having produced the full new file. -/
theorem appImage_diff_failure_swallowed :
    appImageDownloadTask "linux" (some (JsError.plain "diff failed")) =
      Except.ok AppImageResult.fullFile ∧
    appImageDownloadTask "darwin" (some (JsError.plain "diff failed")) =
      Except.ok AppImageResult.noNewFile :=
  ⟨rfl, rfl⟩

/-- C8: `setDownloadedFile` is called with `isSaveCache = false` exactly when
`validateDownloadedPath` returned a cached path (and then the task never
runs), and with `isSaveCache = true` exactly when a fresh download task
succeeded and the temp file was renamed into place. -/
theorem setDownloadedFile_cache_flag (cached : Option String)
    (outcome : TaskOutcome) (s : CacheState) :
    ((executeDownload cached outcome s).2.2.count (DlEvent.downloadedSet false) = 1 ↔
      cached ≠ none) ∧
    (cached ≠ none → DlEvent.taskRun ∉ (executeDownload cached outcome s).2.2) ∧
    ((executeDownload cached outcome s).2.2.count (DlEvent.downloadedSet true) = 1 ↔
      (cached = none ∧ outcome = TaskOutcome.success)) := by
  cases cached with
  | some f =>
    refine ⟨?_, ?_, ?_⟩ <;> simp [executeDownload, List.count]
  | none =>
    cases outcome with
    | success =>
      refine ⟨?_, ?_, ?_⟩ <;> simp [executeDownload, List.count]
    | failure e =>
      by_cases he : e = JsError.cancellation <;>
        refine ⟨?_, ?_, ?_⟩ <;> simp [executeDownload, List.count, he]

/-- Witness for `setDownloadedFile_cache_flag`: a cache hit records the
sidecar-skipping call and runs no task; a fresh successful download records
the persisting call. -/
theorem setDownloadedFile_cache_flag_witness :
    (executeDownload (some "cached.AppImage") TaskOutcome.success
        ⟨false, false, false⟩).2.2.count (DlEvent.downloadedSet false) = 1 ∧
    DlEvent.taskRun ∉ (executeDownload (some "cached.AppImage") TaskOutcome.success
        ⟨false, false, false⟩).2.2 ∧
    (executeDownload none TaskOutcome.success
        ⟨false, false, false⟩).2.2.count (DlEvent.downloadedSet true) = 1 :=
  ⟨(setDownloadedFile_cache_flag (some "cached.AppImage") TaskOutcome.success
      ⟨false, false, false⟩).1.mpr (by simp),
    (setDownloadedFile_cache_flag (some "cached.AppImage") TaskOutcome.success
      ⟨false, false, false⟩).2.1 (by simp),
    (setDownloadedFile_cache_flag none TaskOutcome.success
      ⟨false, false, false⟩).2.2.mpr ⟨rfl, rfl⟩⟩

/-- C10: the channel setter never throws while the stored channel is null
(any value, including the empty string or a non-string, is accepted); once a
channel is stored, an assignment throws `ERR_UPDATER_INVALID_CHANNEL` exactly
when the new value is not a string or is the empty string; and every
assignment that does not throw stores the value and sets `allowDowngrade`. -/
theorem channel_setter_validation (s : ChannelState) (v : JsVal) :
    (s.channelField = JsVal.vnull → setChannel v s = Except.ok ⟨v, true⟩) ∧
    (s.channelField ≠ JsVal.vnull →
      ((∃ m, setChannel v s = Except.error (JsError.coded m invalidChannelCode)) ↔
        ((∀ str, v ≠ JsVal.vstr str) ∨ v = JsVal.vstr ""))) ∧
    (∀ s2, setChannel v s = Except.ok s2 → s2 = ⟨v, true⟩) := by
  refine ⟨?_, ?_, ?_⟩
  · intro h
    cases v <;> simp [setChannel, h]
  · intro h
    cases v with
    | vstr str =>
      by_cases hstr : str.length = 0
      · have hempty : str = "" := (string_length_zero_iff str).mp hstr
        subst hempty
        simp [setChannel, h]
      · have hne : str ≠ "" := fun he => hstr ((string_length_zero_iff str).mpr he)
        simp [setChannel, h, hstr, hne]
    | vnull => simp [setChannel, h]
    | vnum n => simp [setChannel, h]
    | vbool b => simp [setChannel, h]
  · intro s2 h2
    by_cases hn : s.channelField ≠ JsVal.vnull
    · cases v with
      | vstr str =>
        by_cases hstr : str.length = 0
        · simp [setChannel, hn, hstr] at h2
        · simp [setChannel, hn, hstr] at h2
          exact h2.symm
      | vnull => simp [setChannel, hn] at h2
      | vnum n => simp [setChannel, hn] at h2
      | vbool b => simp [setChannel, hn] at h2
    · cases v <;> simp [setChannel, hn] at h2 <;> exact h2.symm

/-- Witness for `channel_setter_validation`: the first assignment accepts a
number; a second assignment of `null` throws; a second assignment of a
nonempty string is stored with `allowDowngrade` enabled. -/
theorem channel_setter_validation_witness :
    setChannel (JsVal.vnum 3) ⟨JsVal.vnull, false⟩ =
      Except.ok ⟨JsVal.vnum 3, true⟩ ∧
    (∃ m, setChannel JsVal.vnull ⟨JsVal.vstr "beta", true⟩ =
      Except.error (JsError.coded m invalidChannelCode)) ∧
    ∀ s2, setChannel (JsVal.vstr "alpha") ⟨JsVal.vstr "beta", true⟩ =
      Except.ok s2 → s2 = ⟨JsVal.vstr "alpha", true⟩ :=
  ⟨(channel_setter_validation ⟨JsVal.vnull, false⟩ (JsVal.vnum 3)).1 rfl,
    ((channel_setter_validation ⟨JsVal.vstr "beta", true⟩ JsVal.vnull).2.1
      (by simp)).mpr (Or.inl (by simp)),
    (channel_setter_validation ⟨JsVal.vstr "beta", true⟩ (JsVal.vstr "alpha")).2.2⟩

end ElectronUpdater
